import Mathlib

/-!
Shallow embedding of the content visibility & engagement pipeline of an
anonymous short-post social backend (Mongo-style models behind Express
controllers).  The embedding follows the JavaScript source:

* `src/utils/postUtils.js` (also exported from
  `src/services/moderationService.js`): `containsSensitiveContent`,
  `filterPostsForUser`;
* `src/models/postModel.js`: the `Post` schema and
  `updateEngagementScore`;
* `src/controllers/postController.js`: `getPersonalizedFeed`, `getPost`,
  `addReaction`, `removeReaction`;
* `src/controllers/searchController.js`: `searchPosts` (the query-term
  validation) and `getCategoryPosts`.

MongoDB ObjectIds are modelled as `Nat`, timestamps as milliseconds
(`Nat` on items, `ℝ` where arithmetic happens), JavaScript numbers used
as counters as `Int`, and the document store as a `List Post` already in
the order in which the store would return it for the listing's sort
(theorem hypotheses state the order where it matters).  Fallible
handlers return `Except ApiError _`.
-/

/-- The five reaction kinds hard-coded in the post schema
(`❤️ 👍 😂 😮 🙌`). -/
inductive ReactionKind : Type
  | heart
  | thumbsUp
  | joy
  | wow
  | raisedHands
deriving DecidableEq, Fintype

/-- `visibility` enum of the post schema: `['public', 'moderated', 'deleted']`. -/
inductive Visibility : Type
  | public
  | moderated
  | deleted
deriving DecidableEq

/-- A post document (`src/models/postModel.js`), restricted to the fields
the visibility/engagement pipeline reads.  The per-kind reaction counter
object and per-kind reactor-ID arrays are modelled as functions from
`ReactionKind`. -/
structure Post : Type where
  _id : Nat
  userId : Nat
  content : String
  createdAt : Nat
  hashtags : List String
  reactions : ReactionKind → Int
  reactionUsers : ReactionKind → List Nat
  commentCount : Int
  contentWarning : Option String
  visibility : Visibility
  impressionCount : Int
  shareCount : Int

/-- `settings.contentFilters` sub-document of the user schema. -/
structure ContentFilters : Type where
  contentFiltering : Bool
  showSensitiveContent : Bool

/-- `settings` sub-document of the user schema (only the part the filter
reads). -/
structure Settings : Type where
  contentFilters : ContentFilters

/-- A user document (`src/models/userModel.js`), restricted to the fields
the pipeline reads. -/
structure User : Type where
  _id : Nat
  isAdmin : Bool
  blockedUsers : List Nat
  keywordFilters : List String
  settings : Settings

/-- JavaScript truthiness of an optional string field
(`undefined` and `''` are falsy). -/
def optStrTruthy : Option String → Bool
  | none => false
  | some s => s != ""

/-- `containsSensitiveContent(content, keywords)` from
`src/utils/postUtils.js`: case-insensitive substring match of any keyword
in the content. -/
def containsSensitiveContent (content : String) (keywords : List String) : Bool :=
  if keywords.isEmpty then false
  else keywords.any fun keyword => decide (keyword.toLower.data <:+: content.toLower.data)

/-- The per-post predicate inside `filterPostsForUser` for an
authenticated user: blocked author, then content filters, then
non-public visibility, each a hard exclusion. -/
def postPassesForUser (post : Post) (user : User) : Bool :=
  if user.blockedUsers.any fun i => i == post.userId then false
  else if user.settings.contentFilters.contentFiltering &&
      ((optStrTruthy post.contentWarning &&
        !user.settings.contentFilters.showSensitiveContent) ||
       (!user.keywordFilters.isEmpty &&
        containsSensitiveContent post.content user.keywordFilters)) then false
  else if post.visibility != Visibility.public then false
  else true

/-- `filterPostsForUser(posts, user)` from `src/utils/postUtils.js`:
anonymous viewers get the public-only filter, authenticated viewers get
the full per-post predicate. -/
def filterPostsForUser (posts : List Post) (user : Option User) : List Post :=
  match user with
  | none => posts.filter fun post => post.visibility == Visibility.public
  | some u => posts.filter fun post => postPassesForUser post u

/-- Error envelopes produced by the handlers this embedding covers
(`error.code` of the JSON response). -/
inductive ApiError : Type
  | POST_001
  | POST_004
  | POST_005
  | POST_006
  | POST_007
  | AUTH_003
  | SEARCH_001
deriving DecidableEq

/-- HTTP status the controller sends with each error code. -/
def ApiError.status : ApiError → Nat
  | .POST_001 => 404
  | .POST_004 => 400
  | .POST_005 => 403
  | .POST_006 => 400
  | .POST_007 => 400
  | .AUTH_003 => 403
  | .SEARCH_001 => 400

/-- `const filteredPosts = user ? filterPostsForUser(posts, user) : posts`
— the in-memory filter pass every listing handler applies after
pagination. -/
def applyUserFilter (posts : List Post) (user : Option User) : List Post :=
  match user with
  | some _ => filterPostsForUser posts user
  | none => posts

/-- The store query of `getPersonalizedFeed`: `visibility: 'public'`,
`_id: { $lt: cursor }` when a cursor is given, and
`userId: { $nin: user.blockedUsers }` when the authenticated viewer has a
non-empty block list. -/
def feedQueryPred (user : Option User) (cursor : Option Nat) (p : Post) : Bool :=
  p.visibility == Visibility.public &&
  (match cursor with
   | none => true
   | some c => decide (p._id < c)) &&
  (match user with
   | none => true
   | some u => u.blockedUsers.isEmpty || !(u.blockedUsers.any fun i => i == p.userId))

/-- `Post.find(query).sort(...).limit(lim)`: the store is modelled as a
list already in the listing's sort order, so a query is a filter followed
by `take`. -/
def findSorted (store : List Post) (pred : Post → Bool) (lim : Nat) : List Post :=
  (store.filter pred).take lim

/-- A listing response: the page of posts plus the
`meta.pagination` fields. -/
structure FeedPage : Type where
  posts : List Post
  hasMore : Bool
  nextCursor : Option Nat

/-- The pagination/trim/filter/cursor logic shared by the listing
handlers, applied to the `limit + 1` items fetched from the store:
`hasMore = posts.length > limit`, `pop()` the overflow item when
`hasMore`, apply the viewer filter, and mint
`nextCursor = filteredPosts.length > 0 ? filteredPosts[last]._id : null`. -/
def paginateAndFilter (fetched : List Post) (limit : Nat) (user : Option User) :
    FeedPage :=
  let hasMore := decide (limit < fetched.length)
  let posts := if hasMore then fetched.dropLast else fetched
  let filteredPosts := applyUserFilter posts user
  { posts := filteredPosts
    hasMore := hasMore
    nextCursor := filteredPosts.getLast?.map Post._id }

/-- `getPersonalizedFeed` (`src/controllers/postController.js`):
`parsedLimit = Math.min(parseInt(limit), 50)`, fetch
`parsedLimit + 1` public posts after the cursor excluding blocked
authors, then trim/filter/mint the cursor. -/
def getPersonalizedFeed (store : List Post) (user : Option User)
    (cursor : Option Nat) (limit : Nat) : FeedPage :=
  let parsedLimit := min limit 50
  paginateAndFilter (findSorted store (feedQueryPred user cursor) (parsedLimit + 1))
    parsedLimit user

/-- The store query of `getCategoryPosts`
(`src/controllers/searchController.js`): `visibility: 'public'`,
`hashtags: { $in: categoryHashtags }` when the category has hashtags,
`_id: { $lt: cursor }` when a cursor is given.  No blocked-author
exclusion at the query layer. -/
def categoryQueryPred (categoryHashtags : List String) (cursor : Option Nat)
    (p : Post) : Bool :=
  p.visibility == Visibility.public &&
  (categoryHashtags.isEmpty ||
    p.hashtags.any fun h => categoryHashtags.contains h) &&
  (match cursor with
   | none => true
   | some c => decide (p._id < c))

/-- `getCategoryPosts`: fetches `parseInt(limit) + 1` items — the
requested limit is used as-is, with no `Math.min(..., 50)` clamp — then
the same trim/filter/cursor logic as the feed. -/
def getCategoryPosts (store : List Post) (categoryHashtags : List String)
    (user : Option User) (cursor : Option Nat) (limit : Nat) : FeedPage :=
  paginateAndFilter
    (findSorted store (categoryQueryPred categoryHashtags cursor) (limit + 1))
    limit user

/-- The visibility gate of `getPost`: a non-public post is served only to
its author or an admin; anonymous viewers and other users get a 403
`AUTH_003`.  A missing id is a 404 `POST_001`.  (The impression-count
increment and the comment sub-query of the handler are outside the
visibility core.) -/
def getPost (store : List Post) (id : Nat) (user : Option User) :
    Except ApiError Post :=
  match store.find? fun p => p._id == id with
  | none => .error .POST_001
  | some post =>
    if post.visibility != Visibility.public &&
        (match user with
         | none => true
         | some u => post.userId != u._id && !u.isAdmin) then
      .error .AUTH_003
    else
      .ok post

/-- Model of JavaScript `String.prototype.trim`: strip leading and
trailing whitespace. -/
def jsTrim (s : String) : String :=
  ⟨((s.data.dropWhile Char.isWhitespace).reverse.dropWhile Char.isWhitespace).reverse⟩

/-- The query-term validation of `searchPosts`
(`src/controllers/searchController.js`): `if (!q || q.trim() === '')`
respond 400 `SEARCH_001`, otherwise the trimmed term is passed to the
search service. -/
def searchPostsTerm (q : Option String) : Except ApiError String :=
  if !optStrTruthy q || jsTrim (q.getD "") == "" then .error .SEARCH_001
  else .ok (jsTrim (q.getD ""))

/-- `addReaction` after the reaction-type validation and post lookup
(`src/controllers/postController.js`): reject non-public posts
(`POST_005`), reject a duplicate reaction by the same user (`POST_006`),
otherwise atomically `$inc` the per-kind counter and `$push` the user id
onto the per-kind reactor array. -/
def addReaction (post : Post) (userId : Nat) (type : ReactionKind) :
    Except ApiError Post :=
  if post.visibility != Visibility.public then .error .POST_005
  else if (post.reactionUsers type).any fun i => i == userId then .error .POST_006
  else
    .ok { post with
      reactions := fun t => if t = type then post.reactions t + 1 else post.reactions t
      reactionUsers := fun t =>
        if t = type then post.reactionUsers t ++ [userId] else post.reactionUsers t }

/-- `removeReaction` after the reaction-type validation and post lookup:
reject when the user has not reacted with this kind (`POST_007`),
otherwise atomically `$inc` the counter by `-1` and `$pull` the user id
from the per-kind reactor array (`$pull` removes every occurrence). -/
def removeReaction (post : Post) (userId : Nat) (type : ReactionKind) :
    Except ApiError Post :=
  if !((post.reactionUsers type).any fun i => i == userId) then .error .POST_007
  else
    .ok { post with
      reactions := fun t => if t = type then post.reactions t - 1 else post.reactions t
      reactionUsers := fun t =>
        if t = type then (post.reactionUsers t).filter fun i => !(i == userId)
        else post.reactionUsers t }

/-- `reactionTotal` of `updateEngagementScore`
(`src/models/postModel.js`): the sum of the five per-kind counters. -/
def reactionTotal (post : Post) : Int :=
  post.reactions .heart + post.reactions .thumbsUp + post.reactions .joy +
    post.reactions .wow + post.reactions .raisedHands

/-- `updateEngagementScore` (`src/models/postModel.js`) as a function of
the evaluation time `now` (the source reads `Date.now()`):
`(reactionTotal*1 + commentCount*2 + shareCount*3 + impressionCount*0.1)
 * exp(-ageInHours / 24)` with `ageInHours = (now - createdAt) / 3.6e6`. -/
noncomputable def updateEngagementScore (post : Post) (now : ℝ) : ℝ :=
  let ageInHours := (now - (post.createdAt : ℝ)) / (1000 * 60 * 60)
  let decayFactor := Real.exp (-ageInHours / 24)
  (((reactionTotal post : ℝ) * 1) +
    ((post.commentCount : ℝ) * 2) +
    ((post.shareCount : ℝ) * 3) +
    ((post.impressionCount : ℝ) * 0.1)) * decayFactor

/-! ### Concrete fixtures used by witnesses and counterexamples -/

/-- A plain public post with id `i`, author `0`, empty body and zeroed
counters. -/
def mkPost (i : Nat) : Post :=
  { _id := i
    userId := 0
    content := ""
    createdAt := i
    hashtags := []
    reactions := fun _ => 0
    reactionUsers := fun _ => []
    commentCount := 0
    contentWarning := none
    visibility := .public
    impressionCount := 0
    shareCount := 0 }

/-- A user with id `i` and block list `blocked`, no content filters, not
an admin. -/
def plainUser (i : Nat) (blocked : List Nat) : User :=
  { _id := i
    isAdmin := false
    blockedUsers := blocked
    keywordFilters := []
    settings := { contentFilters := { contentFiltering := false, showSensitiveContent := false } } }

/-! ### Helper lemmas -/

/-- `applyUserFilter` never reorders or invents items. -/
theorem applyUserFilter_sublist (posts : List Post) (user : Option User) :
    (applyUserFilter posts user).Sublist posts := by
  cases user with
  | none => exact List.Sublist.refl _
  | some u => exact List.filter_sublist _

/-- A post kept by the authenticated-user predicate is public. -/
theorem postPassesForUser_public {post : Post} {u : User}
    (h : postPassesForUser post u = true) : post.visibility = Visibility.public := by
  rw [postPassesForUser] at h
  split at h
  · simp at h
  · split at h
    · simp at h
    · split at h
      · simp at h
      · rename_i hvis
        simpa using hvis

/-- A post kept by `filterPostsForUser` for any viewer is public. -/
theorem mem_filterPostsForUser_public {post : Post} {posts : List Post}
    {user : Option User} (h : post ∈ filterPostsForUser posts user) :
    post.visibility = Visibility.public := by
  cases user with
  | none =>
    have := (List.mem_filter.mp h).2
    simpa using this
  | some u => exact postPassesForUser_public (List.mem_filter.mp h).2

/-! ### C10 -/

/-- C10: for every viewer (including none) and every list of posts,
`filterPostsForUser` returns a subsequence of its input (preserving
relative order, never adding or modifying items) and is idempotent. -/
theorem filterPostsForUser_sublist_idempotent (posts : List Post) (user : Option User) :
    (filterPostsForUser posts user).Sublist posts ∧
    filterPostsForUser (filterPostsForUser posts user) user =
      filterPostsForUser posts user := by
  constructor
  · cases user with
    | none => exact List.filter_sublist _
    | some u => exact List.filter_sublist _
  · cases user with
    | none => simp [filterPostsForUser, List.filter_filter]
    | some u => simp [filterPostsForUser, List.filter_filter]

/-! ### C1 -/

/-- C1 (amended): if the viewer's `blockedUsers` contains the item's
author id, the visibility filter excludes the item; the reverse
direction (author blocks viewer) is not checked by the filter. -/
theorem filter_excludes_viewer_blocked_author (user : User) (post : Post)
    (h : post.userId ∈ user.blockedUsers) :
    ∀ posts : List Post, post ∉ filterPostsForUser posts (some user) := by
  intro posts hmem
  have hpass := (List.mem_filter.mp hmem).2
  rw [postPassesForUser] at hpass
  have hany : (user.blockedUsers.any fun i => i == post.userId) = true := by
    rw [List.any_eq_true]
    exact ⟨post.userId, h, by simp⟩
  rw [if_pos hany] at hpass
  simp at hpass

/-- Witness for C1's amended theorem at a concrete blocked author. -/
theorem filter_excludes_viewer_blocked_author_witness :
    mkPost 3 ∉ filterPostsForUser [mkPost 3] (some (plainUser 1 [0])) :=
  filter_excludes_viewer_blocked_author (plainUser 1 [0]) (mkPost 3) (by decide)
    [mkPost 3]

/-- A viewer with id 1 who blocks nobody. -/
def cViewer : User := plainUser 1 []

/-- An author with id 2 whose block list contains the viewer's id 1. -/
def cAuthor : User := plainUser 2 [1]

/-- A public post written by `cAuthor`. -/
def cPost : Post := { mkPost 10 with userId := 2 }

/-- C1 counterexample: the author blocks the viewer
(`cAuthor.blockedUsers` contains `cViewer._id`), yet the filter keeps
the author's post for that viewer — the reverse-block direction claimed
by the spec is not enforced by `filterPostsForUser`. -/
theorem reverse_block_not_enforced :
    cViewer._id ∈ cAuthor.blockedUsers ∧
    cPost.userId = cAuthor._id ∧
    filterPostsForUser [cPost] (some cViewer) = [cPost] :=
  ⟨by decide, by decide, rfl⟩

/-! ### C6 -/

/-- C6: a non-public item is excluded by the visibility filter for every
viewer that is neither its author nor an admin (including the anonymous
viewer), and a direct `getPost` lookup of it by such a viewer is
rejected with the 403 authorization error `AUTH_003`. -/
theorem nonpublic_hidden_from_nonprivileged (post : Post) (user : Option User)
    (hvis : post.visibility ≠ Visibility.public)
    (hpriv : ∀ u, user = some u → post.userId ≠ u._id ∧ u.isAdmin = false) :
    (∀ posts, post ∉ filterPostsForUser posts user) ∧
    (∀ store id, (store.find? fun p => p._id == id) = some post →
      getPost store id user = .error .AUTH_003) ∧
    ApiError.AUTH_003.status = 403 := by
  refine ⟨?_, ?_, rfl⟩
  · intro posts hmem
    exact hvis (mem_filterPostsForUser_public hmem)
  · intro store id hfind
    have hb : (post.visibility != Visibility.public) = true := by
      simp [bne_iff_ne, hvis]
    cases user with
    | none =>
      simp only [getPost, hfind]
      simp [hb]
    | some u =>
      obtain ⟨hne, hadm⟩ := hpriv u rfl
      have hne' : (post.userId != u._id) = true := by simp [bne_iff_ne, hne]
      simp only [getPost, hfind]
      simp [hb, hne', hadm]

/-- A moderated (non-public) post. -/
def cModerated : Post := { mkPost 4 with visibility := .moderated }

/-- Witness for C6 at a concrete moderated post and the anonymous
viewer. -/
theorem nonpublic_hidden_from_nonprivileged_witness :
    (∀ posts, cModerated ∉ filterPostsForUser posts none) ∧
    (∀ store id, (store.find? fun p => p._id == id) = some cModerated →
      getPost store id none = .error .AUTH_003) ∧
    ApiError.AUTH_003.status = 403 :=
  nonpublic_hidden_from_nonprivileged cModerated none (by decide)
    (fun u h => by cases h)

/-! ### C8 -/

/-- C8: the search-posts handler rejects an absent, empty or
whitespace-only query term with the 400 validation error `SEARCH_001`
(never an empty-result success), and accepts every term whose trimmed
form is non-empty. -/
theorem searchTerm_validation (q : Option String) :
    (searchPostsTerm q = .error .SEARCH_001 ↔ jsTrim (q.getD "") = "") ∧
    (jsTrim (q.getD "") ≠ "" → searchPostsTerm q = .ok (jsTrim (q.getD ""))) ∧
    ApiError.SEARCH_001.status = 400 := by
  refine ⟨?_, ?_, rfl⟩
  · cases q with
    | none =>
      simp [searchPostsTerm, optStrTruthy]
      decide
    | some s =>
      rw [searchPostsTerm]
      by_cases hs : s = ""
      · subst hs
        simp [optStrTruthy]
        decide
      · by_cases ht : jsTrim s = ""
        · simp [optStrTruthy, hs, ht]
        · simp [optStrTruthy, hs, ht]
  · intro hne
    cases q with
    | none => exact absurd (by decide) hne
    | some s =>
      simp only [Option.getD_some] at hne ⊢
      have hs : s ≠ "" := by
        intro h
        subst h
        exact hne (by decide)
      rw [searchPostsTerm]
      simp [optStrTruthy, hs, hne]

/-- Witness for C8: a padded concrete term passes validation and is
trimmed. -/
theorem searchTerm_validation_witness :
    searchPostsTerm (some " hello ") = .ok "hello" :=
  (searchTerm_validation (some " hello ")).2.1 (by decide)

/-! ### C2 and C9: reaction operations -/

/-- The §3 invariant: each per-kind reaction counter equals the length of
the corresponding reactor-ID array. -/
def countsMatch (post : Post) : Prop :=
  ∀ t, post.reactions t = ((post.reactionUsers t).length : Int)

instance countsMatchDecidable (post : Post) : Decidable (countsMatch post) :=
  inferInstanceAs (Decidable (∀ t, post.reactions t = ((post.reactionUsers t).length : Int)))

/-- No per-kind reactor array holds the same user id twice. -/
def setsNodup (post : Post) : Prop :=
  ∀ t, (post.reactionUsers t).Nodup

instance setsNodupDecidable (post : Post) : Decidable (setsNodup post) :=
  inferInstanceAs (Decidable (∀ t, (post.reactionUsers t).Nodup))

/-- The total reactor-array length across the five kinds. -/
def reactorLenTotal (post : Post) : Int :=
  ((post.reactionUsers .heart).length : Int) +
    ((post.reactionUsers .thumbsUp).length : Int) +
    ((post.reactionUsers .joy).length : Int) +
    ((post.reactionUsers .wow).length : Int) +
    ((post.reactionUsers .raisedHands).length : Int)

/-- Counter/array agreement per kind gives agreement of the totals. -/
theorem countsMatch_total {post : Post} (h : countsMatch post) :
    reactionTotal post = reactorLenTotal post := by
  rw [reactionTotal, reactorLenTotal, h .heart, h .thumbsUp, h .joy, h .wow,
    h .raisedHands]

/-- C2: starting from a post satisfying the counter/array invariant
(with duplicate-free reactor arrays), any successful `addReaction` or
`removeReaction` preserves `reactions[k] = reactionUsers[k].length` for
every kind, and hence `reactionTotal = sum of reactionUsers[kind].length`
— the `$inc` and the `$push`/`$pull` land together. -/
theorem reaction_invariant_preserved (post : Post) (userId : Nat)
    (type : ReactionKind) (hmatch : countsMatch post) (hnodup : setsNodup post) :
    (∀ post', addReaction post userId type = .ok post' →
      countsMatch post' ∧ reactionTotal post' = reactorLenTotal post') ∧
    (∀ post', removeReaction post userId type = .ok post' →
      countsMatch post' ∧ reactionTotal post' = reactorLenTotal post') := by
  constructor
  · intro post' hok
    rw [addReaction] at hok
    split at hok
    · simp at hok
    · split at hok
      · simp at hok
      · rename_i hvis hmem
        rw [Except.ok.injEq] at hok
        subst hok
        have hcm : countsMatch { post with
            reactions := fun t => if t = type then post.reactions t + 1 else post.reactions t
            reactionUsers := fun t =>
              if t = type then post.reactionUsers t ++ [userId]
              else post.reactionUsers t } := by
          intro t
          by_cases ht : t = type
          · subst ht
            simp only [if_pos rfl]
            rw [hmatch t]
            simp
          · simp only [if_neg ht]
            exact hmatch t
        exact ⟨hcm, countsMatch_total hcm⟩
  · intro post' hok
    rw [removeReaction] at hok
    split at hok
    · simp at hok
    · rename_i hmem
      rw [Except.ok.injEq] at hok
      subst hok
      have hin : userId ∈ post.reactionUsers type := by
        rw [Bool.not_eq_true', Bool.not_eq_false] at hmem
        rw [List.any_eq_true] at hmem
        obtain ⟨i, hi, hieq⟩ := hmem
        rw [beq_iff_eq] at hieq
        exact hieq ▸ hi
      have hcm : countsMatch { post with
          reactions := fun t => if t = type then post.reactions t - 1 else post.reactions t
          reactionUsers := fun t =>
            if t = type then (post.reactionUsers t).filter fun i => !(i == userId)
            else post.reactionUsers t } := by
        intro t
        by_cases ht : t = type
        · subst ht
          show (if t = t then post.reactions t - 1 else post.reactions t) =
            ((if t = t then (post.reactionUsers t).filter fun i => !(i == userId)
              else post.reactionUsers t).length : Int)
          rw [if_pos rfl, if_pos rfl]
          have herase : ((post.reactionUsers t).filter fun i => !(i == userId)) =
              (post.reactionUsers t).erase userId := by
            rw [List.Nodup.erase_eq_filter (hnodup t)]
            apply List.filter_congr
            intro a _
            simp [bne]
          rw [herase, List.length_erase_of_mem hin, hmatch t]
          have hpos : 0 < (post.reactionUsers t).length := List.length_pos_of_mem hin
          omega
        · simp only [if_neg ht]
          exact hmatch t
      exact ⟨hcm, countsMatch_total hcm⟩

/-- A public post with two hearts from users 1 and 2. -/
def rPost : Post := { mkPost 1 with
  reactions := fun t => if t = .heart then 2 else 0
  reactionUsers := fun t => if t = .heart then [1, 2] else [] }

/-- `rPost` after user 3 hearts it (the literal record `addReaction`
produces). -/
def rPostAfterAdd : Post := { rPost with
  reactions := fun t => if t = .heart then rPost.reactions t + 1 else rPost.reactions t
  reactionUsers := fun t =>
    if t = .heart then rPost.reactionUsers t ++ [3] else rPost.reactionUsers t }

/-- Witness for C2: user 3 hearts `rPost`; the invariant holds on the
result. -/
theorem reaction_invariant_preserved_witness :
    countsMatch rPostAfterAdd ∧ reactionTotal rPostAfterAdd = reactorLenTotal rPostAfterAdd :=
  (reaction_invariant_preserved rPost 3 .heart (by decide) (by decide)).1
    rPostAfterAdd rfl

/-- C9 (amended): for a PUBLIC post whose per-kind reactor array already
contains the user, `addReaction` fails with the 400 duplicate-reaction
error `POST_006` (leaving the post unchanged — the error branch returns
before the store update); and both reaction operations preserve
duplicate-freeness of every per-kind reactor array.  (For a non-public
post the duplicate check is never reached: the handler fails earlier
with `POST_005`.) -/
theorem addReaction_duplicate_rejected (post : Post) (userId : Nat)
    (type : ReactionKind) (hpub : post.visibility = Visibility.public)
    (hmem : userId ∈ post.reactionUsers type) :
    addReaction post userId type = .error .POST_006 ∧
    ApiError.POST_006.status = 400 ∧
    (∀ u t post', setsNodup post →
      (addReaction post u t = .ok post' ∨ removeReaction post u t = .ok post') →
      setsNodup post') := by
  refine ⟨?_, rfl, ?_⟩
  · rw [addReaction]
    rw [if_neg (by simp [hpub])]
    rw [if_pos]
    rw [List.any_eq_true]
    exact ⟨userId, hmem, by simp⟩
  · intro u t post' hnodup hok
    cases hok with
    | inl hok =>
      rw [addReaction] at hok
      split at hok
      · simp at hok
      · split at hok
        · simp at hok
        · rename_i hvis hnm
          rw [Except.ok.injEq] at hok
          subst hok
          intro t'
          by_cases ht : t' = t
          · subst ht
            simp only [if_pos rfl]
            have hnotin : u ∉ post.reactionUsers t' := by
              intro hin
              exact hnm (List.any_eq_true.mpr ⟨u, hin, by simp⟩)
            simp [List.nodup_append, hnodup t', hnotin]
          · simp only [if_neg ht]
            exact hnodup t'
    | inr hok =>
      rw [removeReaction] at hok
      split at hok
      · simp at hok
      · rw [Except.ok.injEq] at hok
        subst hok
        intro t'
        by_cases ht : t' = t
        · subst ht
          simp only [if_pos rfl]
          exact (hnodup t').filter _
        · simp only [if_neg ht]
          exact hnodup t'

/-- A public post user 1 already hearted. -/
def pubDupPost : Post := { mkPost 8 with
  reactions := fun t => if t = .heart then 1 else 0
  reactionUsers := fun t => if t = .heart then [1] else [] }

/-- Witness for C9's amended theorem at a concrete duplicate heart. -/
theorem addReaction_duplicate_rejected_witness :
    addReaction pubDupPost 1 .heart = .error .POST_006 ∧
    ApiError.POST_006.status = 400 :=
  ⟨(addReaction_duplicate_rejected pubDupPost 1 .heart rfl (by decide)).1,
    (addReaction_duplicate_rejected pubDupPost 1 .heart rfl (by decide)).2.1⟩

/-- A MODERATED post user 1 already hearted. -/
def dupModPost : Post := { mkPost 6 with
  visibility := .moderated
  reactions := fun t => if t = .heart then 1 else 0
  reactionUsers := fun t => if t = .heart then [1] else [] }

/-- C9 counterexample: the user is already in the reactor array, yet
`addReaction` fails with the non-public error `POST_005` (403), not the
'already reacted' error `POST_006` claimed for every such call — the
visibility check runs first. -/
theorem addReaction_duplicate_on_nonpublic_not_POST_006 :
    1 ∈ dupModPost.reactionUsers .heart ∧
    addReaction dupModPost 1 .heart = .error .POST_005 ∧
    ApiError.POST_005 ≠ ApiError.POST_006 :=
  ⟨by decide, rfl, by decide⟩

/-! ### C3 -/

/-- The spec's scenario item: 10 total reactions, 2 comments, 0 shares,
100 impressions, created at `t0 = 0`. -/
def scenarioPost : Post := { mkPost 0 with
  createdAt := 0
  reactions := fun t => match t with
    | .heart => 4
    | .thumbsUp => 3
    | .joy => 2
    | .wow => 1
    | .raisedHands => 0
  commentCount := 2
  shareCount := 0
  impressionCount := 100 }

/-- C3: the engagement scorer returns
`(reactionTotal*1 + commentCount*2 + shareCount*3 + impressionCount*0.1)
 * exp(-ageHours/24)` where `reactionTotal` sums the five per-kind
counters and `ageHours` is the elapsed time in hours; on the scenario
item evaluated 24 hours (86400000 ms) after creation the score is
`24 * exp(-1)`. -/
theorem engagementScore_formula (post : Post) (now : ℝ) :
    updateEngagementScore post now =
      ((([ReactionKind.heart, .thumbsUp, .joy, .wow, .raisedHands].map
          post.reactions).sum : ℝ) * 1 +
        (post.commentCount : ℝ) * 2 + (post.shareCount : ℝ) * 3 +
        (post.impressionCount : ℝ) * 0.1) *
        Real.exp (-((now - (post.createdAt : ℝ)) / (1000 * 60 * 60)) / 24) ∧
    updateEngagementScore scenarioPost 86400000 = 24 * Real.exp (-1) := by
  constructor
  · rw [updateEngagementScore]
    simp only [reactionTotal, List.map_cons, List.map_nil, List.sum_cons,
      List.sum_nil]
    push_cast
    ring
  · rw [updateEngagementScore]
    have harg : -((86400000 - ((scenarioPost.createdAt : Nat) : ℝ)) /
        (1000 * 60 * 60)) / 24 = -1 := by
      norm_num [scenarioPost, mkPost]
    rw [harg]
    norm_num [reactionTotal, scenarioPost, mkPost]

/-! ### C4 -/

/-- C4 (amended): with at most `n + 1` fetched items,
`hasMore = fetched.length > n`; when `hasMore` the overflow item is
dropped, so the returned page is the viewer filter applied to exactly the
first `n` fetched items (and to all of them when `hasMore` is false);
`nextCursor` is the `_id` of the last item of the returned (post-filter)
page whenever that page is non-empty and null when it is empty —
independent of `hasMore`. -/
theorem paginate_characterization (fetched : List Post) (n : Nat)
    (user : Option User) (hlen : fetched.length ≤ n + 1) :
    (paginateAndFilter fetched n user).hasMore = decide (n < fetched.length) ∧
    ((paginateAndFilter fetched n user).hasMore = true →
      (paginateAndFilter fetched n user).posts =
        applyUserFilter (fetched.take n) user) ∧
    ((paginateAndFilter fetched n user).hasMore = false →
      (paginateAndFilter fetched n user).posts = applyUserFilter fetched user) ∧
    (paginateAndFilter fetched n user).nextCursor =
      ((paginateAndFilter fetched n user).posts.getLast?).map Post._id := by
  by_cases hl : n < fetched.length
  · have hexact : fetched.length = n + 1 := by omega
    refine ⟨by simp [paginateAndFilter, hl], ?_, ?_, rfl⟩
    · intro hm
      have hdrop : fetched.dropLast = fetched.take n := by
        rw [List.dropLast_eq_take, hexact]
        norm_num
      simp [paginateAndFilter, hl, hdrop]
    · intro hm
      have : (paginateAndFilter fetched n user).hasMore = true := by
        simp [paginateAndFilter, hl]
      rw [hm] at this
      simp at this
  · refine ⟨by simp [paginateAndFilter, hl], ?_, ?_, rfl⟩
    · intro hm
      have : (paginateAndFilter fetched n user).hasMore = false := by
        simp [paginateAndFilter, hl]
      rw [hm] at this
      simp at this
    · intro hm
      simp [paginateAndFilter, hl]

/-- Sixteen public posts, as the spec scenario's raw fetch. -/
def fetched16 : List Post := (List.range 16).map mkPost

/-- Witness for C4's amended theorem: limit 15, 16 items fetched. -/
theorem paginate_characterization_witness :
    (paginateAndFilter fetched16 15 none).hasMore = true ∧
    (paginateAndFilter fetched16 15 none).posts =
      applyUserFilter (fetched16.take 15) none :=
  ⟨rfl, (paginate_characterization fetched16 15 none (by decide)).2.1 rfl⟩

/-- C4 counterexample: one item fetched with limit 15 — `hasMore` is
false, yet `nextCursor` is the id of the last returned item, not null as
the claim states. -/
theorem nextCursor_not_null_when_hasMore_false :
    (paginateAndFilter [mkPost 7] 15 none).hasMore = false ∧
    (paginateAndFilter [mkPost 7] 15 none).nextCursor = some 7 :=
  ⟨rfl, rfl⟩

/-! ### C7 -/

/-- The trimmed-and-filtered page is never longer than the fetch limit. -/
theorem paginateAndFilter_posts_length_le (fetched : List Post) (n : Nat)
    (user : Option User) (hlen : fetched.length ≤ n + 1) :
    (paginateAndFilter fetched n user).posts.length ≤ n := by
  by_cases hl : n < fetched.length
  · have hp : (paginateAndFilter fetched n user).posts =
        applyUserFilter fetched.dropLast user := by
      simp [paginateAndFilter, hl]
    rw [hp]
    have hs := (applyUserFilter_sublist fetched.dropLast user).length_le
    have hd : fetched.dropLast.length = fetched.length - 1 := List.length_dropLast _
    omega
  · have hp : (paginateAndFilter fetched n user).posts =
        applyUserFilter fetched user := by
      simp [paginateAndFilter, hl]
    rw [hp]
    have hs := (applyUserFilter_sublist fetched user).length_le
    omega

/-- C7 (amended): `getPersonalizedFeed` clamps the requested limit with
`Math.min(parseInt(limit), 50)`, so its returned page never exceeds 50
items for any requested limit; `getCategoryPosts` applies no such clamp
(see the counterexample). -/
theorem feed_page_size_clamped (store : List Post) (user : Option User)
    (cursor : Option Nat) (limit : Nat) :
    (getPersonalizedFeed store user cursor limit).posts.length ≤ 50 := by
  have hfetch : (findSorted store (feedQueryPred user cursor)
      (min limit 50 + 1)).length ≤ min limit 50 + 1 := by
    rw [findSorted]
    exact List.length_take_le _ _
  have hle := paginateAndFilter_posts_length_le
    (findSorted store (feedQueryPred user cursor) (min limit 50 + 1))
    (min limit 50) user hfetch
  have hmin : min limit 50 ≤ 50 := Nat.min_le_right _ _
  calc (getPersonalizedFeed store user cursor limit).posts.length
      = (paginateAndFilter (findSorted store (feedQueryPred user cursor)
          (min limit 50 + 1)) (min limit 50) user).posts.length := rfl
    _ ≤ min limit 50 := hle
    _ ≤ 50 := hmin

/-- Fifty-one public posts. -/
def bigStore : List Post := (List.range 51).map mkPost

/-- C7 counterexample: `getCategoryPosts` with a requested limit of 51
queries 52 items and returns 51 — more than the claimed ceiling of 50. -/
theorem category_page_size_not_clamped :
    (getCategoryPosts bigStore [] none none 51).posts.length = 51 ∧ 50 < 51 :=
  ⟨rfl, by omega⟩

/-! ### C5 -/

/-- Strict descending order in both the chronological sort key
(`createdAt`) and the cursor key (`_id`), read left to right along the
store list: the later element has the smaller keys. -/
def storeRel (p q : Post) : Prop :=
  q.createdAt < p.createdAt ∧ q._id < p._id

instance storeRelDecidable (p q : Post) : Decidable (storeRel p q) :=
  inferInstanceAs (Decidable (_ ∧ _))

/-- The page built by `paginateAndFilter` is a subsequence of the fetched
list. -/
theorem paginateAndFilter_posts_sublist (fetched : List Post) (n : Nat)
    (user : Option User) :
    (paginateAndFilter fetched n user).posts.Sublist fetched := by
  by_cases hl : n < fetched.length
  · have hp : (paginateAndFilter fetched n user).posts =
        applyUserFilter fetched.dropLast user := by
      simp [paginateAndFilter, hl]
    rw [hp]
    exact (applyUserFilter_sublist _ _).trans (List.dropLast_sublist _)
  · have hp : (paginateAndFilter fetched n user).posts =
        applyUserFilter fetched user := by
      simp [paginateAndFilter, hl]
    rw [hp]
    exact applyUserFilter_sublist _ _

/-- A feed page is a subsequence of the query-filtered store. -/
theorem feed_posts_sublist_filter (store : List Post) (user : Option User)
    (cursor : Option Nat) (limit : Nat) :
    (getPersonalizedFeed store user cursor limit).posts.Sublist
      (store.filter (feedQueryPred user cursor)) := by
  have h := paginateAndFilter_posts_sublist
    (findSorted store (feedQueryPred user cursor) (min limit 50 + 1))
    (min limit 50) user
  have h2 : (findSorted store (feedQueryPred user cursor)
      (min limit 50 + 1)).Sublist (store.filter (feedQueryPred user cursor)) := by
    rw [findSorted]
    exact List.take_sublist _ _
  exact h.trans h2

/-- A feed page is a subsequence of the store. -/
theorem feed_posts_sublist_store (store : List Post) (user : Option User)
    (cursor : Option Nat) (limit : Nat) :
    (getPersonalizedFeed store user cursor limit).posts.Sublist store :=
  (feed_posts_sublist_filter store user cursor limit).trans
    (List.filter_sublist _)

/-- Every item on a feed page satisfies the store query. -/
theorem mem_feed_posts_pred {store : List Post} {user : Option User}
    {cursor : Option Nat} {limit : Nat} {x : Post}
    (hx : x ∈ (getPersonalizedFeed store user cursor limit).posts) :
    feedQueryPred user cursor x = true :=
  (List.mem_filter.mp
    ((feed_posts_sublist_filter store user cursor limit).subset hx)).2

/-- The cursor conjunct of the feed query: a fetched item's `_id` lies
strictly below the cursor. -/
theorem feedQueryPred_cursor_lt {user : Option User} {c : Nat} {x : Post}
    (h : feedQueryPred user (some c) x = true) : x._id < c := by
  unfold feedQueryPred at h
  simp only [Bool.and_eq_true] at h
  exact of_decide_eq_true h.1.2

/-- In a `Pairwise r` list, every member is the last element or relates
to it. -/
theorem pairwise_rel_getLast {α : Type _} {r : α → α → Prop} :
    ∀ {l : List α} {y z : α}, l.Pairwise r → y ∈ l → l.getLast? = some z →
      y = z ∨ r y z := by
  intro l
  induction l with
  | nil => intro y z _ hy _; cases hy
  | cons a t ih =>
    intro y z hp hy hz
    cases t with
    | nil =>
      have hz' : a = z := by simpa using hz
      have hy' : y = a := by simpa using hy
      exact Or.inl (hy'.trans hz')
    | cons b t2 =>
      rw [List.getLast?_cons_cons] at hz
      rw [List.pairwise_cons] at hp
      rcases List.mem_cons.mp hy with hya | hyt
      · subst hya
        exact Or.inr (hp.1 z (List.mem_of_getLast?_eq_some hz))
      · exact ih hp.2 hyt hz

/-- When the store is strictly descending in both keys, `_id` order
determines `createdAt` order between any two of its members. -/
theorem store_id_lt_createdAt_lt {store : List Post} {x y : Post}
    (hp : store.Pairwise storeRel) (hx : x ∈ store) (hy : y ∈ store)
    (hid : x._id < y._id) : x.createdAt < y.createdAt := by
  have hsym : store.Pairwise fun a b => storeRel a b ∨ storeRel b a :=
    hp.imp Or.inl
  have hS : Symmetric fun a b : Post => storeRel a b ∨ storeRel b a :=
    fun a b h => h.symm
  have hne : x ≠ y := by
    intro he
    rw [he] at hid
    omega
  rcases List.Pairwise.forall hS hsym hx hy hne with h | h
  · exact absurd hid (by have := h.2; omega)
  · exact h.1

/-- C5 (amended): for a store with no mutation between requests that is
strictly descending in the chronological sort key AND in `_id` (the two
orders agreeing, as Mongo ObjectIds do for distinct creation times),
every item of the feed page requested with the `nextCursor` of a
previous page has a strictly smaller sort key than every item of that
previous page, and no item of the previous page is returned again.
Without the key-agreement hypothesis the property fails (see the
counterexample): the cursor cuts on `_id` while the sort runs on
`createdAt`. -/
theorem feed_pagination_no_overlap (store : List Post) (user : Option User)
    (c0 : Option Nat) (limit : Nat) (c : Nat)
    (hsorted : store.Pairwise storeRel)
    (hc : (getPersonalizedFeed store user c0 limit).nextCursor = some c) :
    ∀ x ∈ (getPersonalizedFeed store user (some c) limit).posts,
      (∀ y ∈ (getPersonalizedFeed store user c0 limit).posts,
        x.createdAt < y.createdAt) ∧
      x ∉ (getPersonalizedFeed store user c0 limit).posts := by
  intro x hx
  have hsub1 := feed_posts_sublist_store store user c0 limit
  have hpair1 : (getPersonalizedFeed store user c0 limit).posts.Pairwise storeRel :=
    List.Pairwise.sublist hsub1 hsorted
  have hcmap : ((getPersonalizedFeed store user c0 limit).posts.getLast?).map
      Post._id = some c := hc
  obtain ⟨z, hzlast, hzid⟩ := Option.map_eq_some'.mp hcmap
  have hxpred := mem_feed_posts_pred hx
  have hxlt : x._id < c := feedQueryPred_cursor_lt hxpred
  have hxstore : x ∈ store := (feed_posts_sublist_store store user (some c) limit).subset hx
  have hylb : ∀ y ∈ (getPersonalizedFeed store user c0 limit).posts,
      z._id ≤ y._id := by
    intro y hy
    rcases pairwise_rel_getLast hpair1 hy hzlast with he | hrel
    · rw [he]
    · exact le_of_lt hrel.2
  constructor
  · intro y hy
    have hystore : y ∈ store := hsub1.subset hy
    have hidlt : x._id < y._id := by
      have := hylb y hy
      omega
    exact store_id_lt_createdAt_lt hsorted hxstore hystore hidlt
  · intro hxin
    have := hylb x hxin
    omega

/-- A post whose `_id` is `i` and whose creation time is `100 * i` — the
two sort keys agree. -/
def wp (i : Nat) : Post := { mkPost i with createdAt := 100 * i }

/-- A three-post store descending in both keys. -/
def wStore : List Post := [wp 3, wp 2, wp 1]

/-- Witness for C5's amended theorem: page 1 of `wStore` at limit 1 is
`[wp 3]` with cursor 3; page 2 is `[wp 2]`, strictly older and disjoint. -/
theorem feed_pagination_no_overlap_witness :
    (wp 2).createdAt < (wp 3).createdAt ∧
    wp 2 ∉ (getPersonalizedFeed wStore none none 1).posts :=
  ⟨((feed_pagination_no_overlap wStore none none 1 3 (by decide) rfl)
      (wp 2) (List.mem_singleton_self _)).1 (wp 3) (List.mem_singleton_self _),
    ((feed_pagination_no_overlap wStore none none 1 3 (by decide) rfl)
      (wp 2) (List.mem_singleton_self _)).2⟩

/-- `_id` 2 but the newest creation time. -/
def e1 : Post := { mkPost 0 with _id := 2, createdAt := 100 }

/-- `_id` 5 (the largest) with the second-newest creation time. -/
def e2 : Post := { mkPost 0 with _id := 5, createdAt := 90 }

/-- `_id` 1, third-newest creation time. -/
def e3 : Post := { mkPost 0 with _id := 1, createdAt := 80 }

/-- `_id` 0, oldest creation time. -/
def e4 : Post := { mkPost 0 with _id := 0, createdAt := 70 }

/-- A store sorted by descending `createdAt` whose `_id` order disagrees
with the chronological order. -/
def cexStore : List Post := [e1, e2, e3, e4]

/-- C5 counterexample: on a chronologically descending store with no
mutation, page 1 (limit 2) returns `[e1, e2]` and mints cursor 5
(= `e2._id`); page 2 requested with that cursor returns `[e1, e3]` —
`e1` is returned again, because the `$lt` cursor cut runs on `_id`
while the sort runs on `createdAt`. -/
theorem feed_pagination_duplicate_item :
    cexStore.Pairwise (fun p q => q.createdAt < p.createdAt) ∧
    (getPersonalizedFeed cexStore none none 2).nextCursor = some 5 ∧
    e1 ∈ (getPersonalizedFeed cexStore none none 2).posts ∧
    e1 ∈ (getPersonalizedFeed cexStore none (some 5) 2).posts := by
  refine ⟨by decide, rfl, ?_, ?_⟩
  · show e1 ∈ [e1, e2]
    exact List.mem_cons_self _ _
  · show e1 ∈ [e1, e3]
    exact List.mem_cons_self _ _
